import Mathlib

/-!
A shallow embedding of the resource-specification resolver found in
src/python/ray/_private/resource_spec.py, together with the accelerator
detection helpers it calls.

Modelling conventions:
* memory quantities and resource values are rationals; Python float
  literals (0.95, 0.1, 0.05, 100e6) become exact rationals and Python
  int() truncation is modelled by pyInt;
* Python dicts with string keys become association lists with in-place
  value replacement (dictSet / dictUpdate), preserving insertion order;
* Python exceptions become Except errors; an exception that the Python
  code does not catch propagates as an Except error;
* facts read from the host machine or process environment (psutil
  memory queries, sys.platform, CUDA_VISIBLE_DEVICES, GPUtil, WMIC,
  dpctl, /proc/driver/nvidia) are fields of an Env record, and probes
  that can themselves raise are Except-valued fields;
* the named constants read from ray._private.ray_constants (a module
  outside the extracted sources) are fields of a Consts record, so all
  results are parametric in their values.
-/

namespace RaySpec

/-- Floor of a rational as an integer, via floor division of numerator by
denominator. -/
def ratFloor (q : ℚ) : ℤ := Int.fdiv q.num (q.den : ℤ)

/-- Python int() conversion applied to a number: truncation toward zero. -/
def pyInt (q : ℚ) : ℤ := if 0 ≤ q then ratFloor q else -(ratFloor (-q))

/-- Python int() conversion, viewed back inside the rationals. -/
def pyIntQ (q : ℚ) : ℚ := ((pyInt q : ℤ) : ℚ)

/-- A Python dict with string keys and numeric values, as an association
list with at most one entry per key, in insertion order. -/
abbrev ResDict := List (String × ℚ)

/-- Key membership, Python `k in d`. -/
def dictHas (d : ResDict) (k : String) : Bool := d.any (fun p => p.1 == k)

/-- Lookup, Python `d.get(k)`. -/
def dictGet (d : ResDict) (k : String) : Option ℚ :=
  (d.find? (fun p => p.1 == k)).map (fun p => p.2)

/-- Python `d[k] = v`: replace the value of an existing key in place,
otherwise append a new entry. -/
def dictSet (d : ResDict) (k : String) (v : ℚ) : ResDict :=
  if dictHas d k then d.map (fun p => if p.1 == k then (k, v) else p)
  else d ++ [(k, v)]

/-- Python `d.update(u)`. -/
def dictUpdate (d : ResDict) (u : ResDict) : ResDict :=
  u.foldl (fun acc p => dictSet acc p.1 p.2) d

/-- The named constants that resource_spec.py reads from
ray._private.ray_constants; that module is outside the extracted
sources, so the resolver is parameterised over their values. -/
structure Consts where
  DEFAULT_OBJECT_STORE_MEMORY_PROPORTION : ℚ
  MAC_DEGRADED_PERF_MMAP_SIZE_LIMIT : ℚ
  DEFAULT_OBJECT_STORE_MAX_MEMORY_BYTES : ℚ
  REQUIRE_SHM_SIZE_THRESHOLD : ℚ
  DEFAULT_REDIS_MAX_MEMORY_BYTES : ℚ
  REDIS_MINIMUM_MEMORY_BYTES : ℚ
  MAX_RESOURCE_QUANTITY : ℚ
  RESOURCE_CONSTRAINT_PREF : String

/-- Read-only facts that resource_spec.py obtains from the host machine
and the process environment. -/
structure Env where
  auto_node_ip : String
  os_num_cpus : ℚ
  accelerator : String
  platform : String
  system_memory : ℚ
  avail_memory : ℚ
  shared_memory_bytes : ℚ
  cuda_visible_devices : Option (List String)
  xpu_visible_devices : Option (List String)
  gputil_spec_found : Bool
  gputil_gpus : Except Unit (List String)
  nvidia_proc_gpus_dirs : Option (List String)
  gpu_info_file_content : Except Unit String
  wmic_output : Except Unit (List String)
  dpctl_devices : Option ℕ

/-- Prefix string for the per-node identity resource (NODE_ID_PREFIX in
the source; renamed here). -/
def NODE_ID_PREF : String := "node:"

/-- The reserved resource name held by the head node. -/
def HEAD_NODE_RESOURCE_NAME : String := NODE_ID_PREF ++ "__internal_head__"

/-- The ResourceSpec namedtuple: the resource configuration passed to a
raylet.  Every field may be unset (None). -/
structure ResourceSpec where
  num_cpus : Option ℚ
  num_gpus : Option ℚ
  memory : Option ℚ
  object_store_memory : Option ℚ
  resources : Option ResDict
  redis_max_memory : Option ℚ
deriving DecidableEq

/-- ResourceSpec.resolved(): every field is filled out. -/
def ResourceSpec.isResolved (s : ResourceSpec) : Bool :=
  s.num_cpus.isSome && s.num_gpus.isSome && s.memory.isSome &&
    s.object_store_memory.isSome && s.resources.isSome && s.redis_max_memory.isSome

/-- The ways resolve() and the detection helpers abort, under the error
taxonomy of the specification.  In the Python source a reserved-name
collision is an AssertionError or ValueError, a visible-device mismatch
and the redis / memory floors are ValueErrors, an exception escaping
_autodetect_num_gpus propagates uncaught, and assembling the result
record with the local num_gpus variable unassigned is a NameError. -/
inductive ResolveErr where
  | reservedResourceName (name : String)
  | mismatchedVisibleDeviceCount (family : String)
  | detectionException (family : String)
  | redisMemoryBelowMinimum
  | insufficientMemory
  | nameErrorNumGpus
deriving DecidableEq

/-- Errors raised by to_resource_dict. -/
inductive ResourceDictErr where
  | assertNotResolved
  | mustBeWholeNumber (name : String)
  | mustBeNonnegative (name : String)
  | exceedsMaximum (name : String)
deriving DecidableEq

/-- Membership in the regex class \w, ASCII view. -/
def isWordChar (c : Char) : Bool := c.isAlphanum || c == '_'

/-- Membership in the regex class [A-Z0-9]. -/
def isUpperOrDigit (c : Char) : Bool := c.isUpper || c.isDigit

/-- Model of _pretty_gpu_name: re.match of GPU_NAME_PATTERN = \w+\s+([A-Z0-9]+)
against the model name, returning group 1 when the pattern matches at
the start of the string.  The three character classes are pairwise
disjoint, so maximal munch coincides with the regex semantics. -/
def _pretty_gpu_name (name : Option String) : Option String :=
  match name with
  | none => none
  | some s =>
    let cs := s.toList
    let w := cs.takeWhile isWordChar
    if w.isEmpty then none
    else
      let r1 := cs.drop w.length
      let sp := r1.takeWhile (fun c => c.isWhitespace)
      if sp.isEmpty then none
      else
        let r2 := r1.drop sp.length
        let g := r2.takeWhile isUpperOrDigit
        if g.isEmpty then none else some (String.mk g)

/-- The scan inside _constraints_from_gpu_info: the first line that
splits on a colon into exactly two parts whose key strips to "Model"
yields the stripped value. -/
def findModelName : List String → Option String
  | [] => none
  | line :: rest =>
    match line.splitOn ":" with
    | [k, v] => if k.trim == "Model" then some v.trim else findModelName rest
    | _ => findModelName rest

/-- Model of _constraints_from_gpu_info: parse an nvidia information file into a
single accelerator-type constraint resource of value 1, or nothing. -/
def _constraints_from_gpu_info (C : Consts) (info_str : Option String) : ResDict :=
  match info_str with
  | none => []
  | some s =>
    match _pretty_gpu_name (findModelName (s.splitOn "\n")) with
    | some pretty => [(C.RESOURCE_CONSTRAINT_PREF ++ pretty, 1)]
    | none => []

/-- Model of _get_gpu_types_gputil applied to the list of GPU names reported by
GPUtil.getGPUs(): the popped (last) name is parsed into a single
constraint resource of value 1, or nothing. -/
def _get_gpu_types_gputil (C : Consts) (names : List String) : ResDict :=
  match names.getLast? with
  | some info_str =>
    match _pretty_gpu_name (some info_str) with
    | some pretty => [(C.RESOURCE_CONSTRAINT_PREF ++ pretty, 1)]
    | none => []
  | none => []

/-- Model of _get_gpu_info_string: on Linux, read the information file of the
first listed GPU under /proc/driver/nvidia/gpus, when the directory
exists and is nonempty; otherwise None.  The file read may raise. -/
def _get_gpu_info_string (env : Env) : Except Unit (Option String) :=
  if env.platform.startsWith "linux" then
    match env.nvidia_proc_gpus_dirs with
    | some dirs =>
      if 0 < dirs.length then (env.gpu_info_file_content).map some
      else Except.ok none
    | none => Except.ok none
  else Except.ok none

/-- The body of the try-block in _get_cuda_info that computes gpu_types:
GPUtil when available, otherwise the /proc information string. -/
def gpuTypesBody (C : Consts) (env : Env) : Except Unit ResDict :=
  if env.gputil_spec_found then (env.gputil_gpus).map (_get_gpu_types_gputil C)
  else (_get_gpu_info_string env).map (_constraints_from_gpu_info C)

/-- Model of _autodetect_num_gpus: GPUtil when available, otherwise count the
/proc/driver/nvidia/gpus entries on Linux, otherwise count NVIDIA lines
of a WMIC query on win32, otherwise 0.  The GPUtil and WMIC probes may
raise, and those exceptions are not caught here. -/
def _autodetect_num_gpus (env : Env) : Except Unit ℕ :=
  if env.gputil_spec_found then (env.gputil_gpus).map List.length
  else if env.platform.startsWith "linux" then
    Except.ok (match env.nvidia_proc_gpus_dirs with
      | some dirs => dirs.length
      | none => 0)
  else if env.platform == "win32" then
    (env.wmic_output).map
      (fun lines => ((lines.drop 1).filter (fun x => x.startsWith "NVIDIA")).length)
  else Except.ok 0

/-- The try/except around gpu_types in _get_cuda_info: any exception in
the body is caught, logged, and degraded to the initial empty value. -/
def gpuTypesCaught (C : Consts) (env : Env) : ResDict :=
  match gpuTypesBody C env with
  | Except.ok t => t
  | Except.error _ => []

/-- Model of _get_cuda_info: check a requested count against CUDA_VISIBLE_DEVICES
(raising when the request exceeds the visible list), auto-detect when no
count is requested (clamping to the visible list), and compute gpu_types
with every exception caught and degraded to an empty constraint set. -/
def _get_cuda_info (C : Consts) (env : Env) (num_gpus : Option ℚ) :
    Except ResolveErr (ℚ × ResDict) :=
  match num_gpus with
  | some n =>
    match env.cuda_visible_devices with
    | some ids =>
      if (ids.length : ℚ) < n then
        Except.error (ResolveErr.mismatchedVisibleDeviceCount "GPU")
      else Except.ok (n, gpuTypesCaught C env)
    | none => Except.ok (n, gpuTypesCaught C env)
  | none =>
    match _autodetect_num_gpus env with
    | Except.error _ => Except.error (ResolveErr.detectionException "GPU")
    | Except.ok auto =>
      Except.ok
        (match env.cuda_visible_devices with
          | some ids => min (auto : ℚ) (ids.length : ℚ)
          | none => (auto : ℚ),
          gpuTypesCaught C env)

/-- Model of _get_xpu_info: check a requested count against XPU_VISIBLE_DEVICES,
auto-detect via dpctl when no count is requested (an ImportError gives
0, then clamp to the visible list), and emit the fixed generic xpu
type-constraint resource. -/
def _get_xpu_info (C : Consts) (env : Env) (num_xpus : Option ℚ) :
    Except ResolveErr (ℚ × ResDict) :=
  match num_xpus with
  | some n =>
    match env.xpu_visible_devices with
    | some ids =>
      if (ids.length : ℚ) < n then
        Except.error (ResolveErr.mismatchedVisibleDeviceCount "XPU")
      else Except.ok (n, [(C.RESOURCE_CONSTRAINT_PREF ++ "xpu", 1)])
    | none => Except.ok (n, [(C.RESOURCE_CONSTRAINT_PREF ++ "xpu", 1)])
  | none =>
    let detected : ℕ :=
      match env.dpctl_devices with
      | some k => k
      | none => 0
    Except.ok
      (match env.xpu_visible_devices with
        | some ids => min (detected : ℚ) (ids.length : ℚ)
        | none => (detected : ℚ),
        [(C.RESOURCE_CONSTRAINT_PREF ++ "xpu", 1)])

/-- Lines 176-185 of resolve(): branch on the current accelerator.  The
first component is the local num_gpus variable of resolve(), which is
assigned only in the CUDA and XPU branches (none models the Python
local remaining unbound); the second component is the resources update
performed by the branch. -/
def acceleratorStep (C : Consts) (env : Env) (self_num_gpus : Option ℚ) :
    Except ResolveErr (Option ℚ × ResDict) :=
  if env.accelerator == "CUDA" then
    match _get_cuda_info C env self_num_gpus with
    | Except.error e => Except.error e
    | Except.ok (n, t) => Except.ok (some n, t)
  else if env.accelerator == "XPU" then
    match _get_xpu_info C env self_num_gpus with
    | Except.error e => Except.error e
    | Except.ok (n, t) => Except.ok (some n, t)
  else Except.ok (none, [])

/-- Lines 191-223 of resolve(): the default object store size when the
caller left it unset — a fixed proportion of available memory, clamped
on Mac to the degraded-performance ceiling, then capped (on Linux by a
shared-memory derived cap, elsewhere by the absolute maximum). -/
def objectStoreDefault (C : Consts) (env : Env) : ℚ :=
  let object_store_memory := pyIntQ (env.avail_memory * C.DEFAULT_OBJECT_STORE_MEMORY_PROPORTION)
  let object_store_memory :=
    if env.platform == "darwin" then
      min object_store_memory C.MAC_DEGRADED_PERF_MMAP_SIZE_LIMIT
    else object_store_memory
  let max_cap :=
    if env.platform == "linux" || env.platform == "linux2" then
      min (max C.REQUIRE_SHM_SIZE_THRESHOLD (env.shared_memory_bytes * (19 / 20)))
        C.DEFAULT_OBJECT_STORE_MAX_MEMORY_BYTES
    else C.DEFAULT_OBJECT_STORE_MAX_MEMORY_BYTES
  if max_cap < object_store_memory then max_cap else object_store_memory

/-- Lines 226-230 of resolve(): the default redis_max_memory when the
caller left it unset. -/
def redisDefault (C : Consts) (env : Env) : ℚ :=
  min C.DEFAULT_REDIS_MAX_MEMORY_BYTES
    (max (pyIntQ (env.avail_memory * (1 / 10))) C.REDIS_MINIMUM_MEMORY_BYTES)

/-- Lines 239-256 of resolve(): the task-memory value — the caller's
explicit value when set, otherwise the residual of available memory
after the object store and (on the head node) redis, failing when the
residual is below both the absolute 100 MB floor and 5% of total system
memory. -/
def memoryStep (env : Env) (self_memory : Option ℚ)
    (object_store_memory redis_max_memory : ℚ) (is_head : Bool) :
    Except ResolveErr ℚ :=
  match self_memory with
  | some v => Except.ok v
  | none =>
    let m := env.avail_memory - object_store_memory -
      (if is_head then redis_max_memory else 0)
    if m < 100000000 ∧ m < (1 / 20) * env.system_memory then
      Except.error ResolveErr.insufficientMemory
    else Except.ok m

/-- Lines 171-262 of resolve(): everything after the reserved-name
checks and the node/head resource injection, starting from the custom
resource dict those first steps produced. -/
def afterNaming (C : Consts) (env : Env) (self : ResourceSpec) (is_head : Bool)
    (resources : ResDict) : Except ResolveErr ResourceSpec :=
  let num_cpus := self.num_cpus.getD env.os_num_cpus
  match acceleratorStep C env self.num_gpus with
  | Except.error e => Except.error e
  | Except.ok (num_gpus, gpu_types) =>
    let resources := dictUpdate resources gpu_types
    let object_store_memory := (self.object_store_memory).getD (objectStoreDefault C env)
    let redis_max_memory := (self.redis_max_memory).getD (redisDefault C env)
    if redis_max_memory < C.REDIS_MINIMUM_MEMORY_BYTES then
      Except.error ResolveErr.redisMemoryBelowMinimum
    else
      match memoryStep env self.memory object_store_memory redis_max_memory is_head with
      | Except.error e => Except.error e
      | Except.ok memory =>
        match num_gpus with
        | none => Except.error ResolveErr.nameErrorNumGpus
        | some g =>
          Except.ok
            ⟨some num_cpus, some g, some memory, some object_store_memory,
              some resources, some redis_max_memory⟩

/-- The custom resource dict after the node-identity injection and, on
the head node, the head-marker injection (lines 154-169). -/
def builtResources (env : Env) (self : ResourceSpec) (is_head : Bool)
    (node_ip_address : Option String) : ResDict :=
  let r := dictSet ((self.resources).getD [])
    (NODE_ID_PREF ++ node_ip_address.getD env.auto_node_ip) 1
  if is_head then dictSet r HEAD_NODE_RESOURCE_NAME 1 else r

/-- ResourceSpec.resolve(is_head, node_ip_address): returns a copy with
unset values filled out with system defaults, or the error on which the
Python code raises. -/
def resolve (C : Consts) (env : Env) (self : ResourceSpec) (is_head : Bool)
    (node_ip_address : Option String) : Except ResolveErr ResourceSpec :=
  let resources := (self.resources).getD []
  if dictHas resources "CPU" then
    Except.error (ResolveErr.reservedResourceName "CPU")
  else if dictHas resources "GPU" then
    Except.error (ResolveErr.reservedResourceName "GPU")
  else if dictHas resources "memory" then
    Except.error (ResolveErr.reservedResourceName "memory")
  else if dictHas resources "object_store_memory" then
    Except.error (ResolveErr.reservedResourceName "object_store_memory")
  else
    let node_ip := node_ip_address.getD env.auto_node_ip
    let resources := dictSet resources (NODE_ID_PREF ++ node_ip) 1
    if dictHas resources HEAD_NODE_RESOURCE_NAME then
      Except.error (ResolveErr.reservedResourceName HEAD_NODE_RESOURCE_NAME)
    else
      afterNaming C env self is_head
        (if is_head then dictSet resources HEAD_NODE_RESOURCE_NAME 1 else resources)

/-- The dict assembled inside to_resource_dict before validation: the
custom resources with CPU, GPU, memory (int-converted) and
object_store_memory (int-converted) merged over them, and zero-valued
entries dropped. -/
def resourceDictEntries (res : ResDict) (ncpu ngpu mem osm : ℚ) : ResDict :=
  (dictSet (dictSet (dictSet (dictSet res "CPU" ncpu) "GPU" ngpu)
      "memory" (pyIntQ mem)) "object_store_memory" (pyIntQ osm)).filter
    (fun p => decide (p.2 ≠ 0))

/-- The validation loop of to_resource_dict, in source order: whole
number, then nonnegative, then maximum. -/
def checkQuantities (C : Consts) : ResDict → Except ResourceDictErr Unit
  | [] => Except.ok ()
  | (label, q) :: rest =>
    if q.den ≠ 1 then Except.error (ResourceDictErr.mustBeWholeNumber label)
    else if q < 0 then Except.error (ResourceDictErr.mustBeNonnegative label)
    else if C.MAX_RESOURCE_QUANTITY < q then Except.error (ResourceDictErr.exceedsMaximum label)
    else checkQuantities C rest

/-- ResourceSpec.to_resource_dict(): assert the spec is resolved, merge
and rename the fields, drop zero entries, and validate every remaining
quantity. -/
def ResourceSpec.to_resource_dict (C : Consts) (self : ResourceSpec) :
    Except ResourceDictErr ResDict :=
  match self.num_cpus, self.num_gpus, self.memory, self.object_store_memory,
      self.resources, self.redis_max_memory with
  | some ncpu, some ngpu, some mem, some osm, some res, some _ =>
    let entries := resourceDictEntries res ncpu ngpu mem osm
    match checkQuantities C entries with
    | Except.error e => Except.error e
    | Except.ok _ => Except.ok entries
  | _, _, _, _, _, _ => Except.error ResourceDictErr.assertNotResolved

/-! Lemmas about the dict operations. -/

theorem dictHas_dictSet_of {d : ResDict} {k : String} (k' : String) (v : ℚ)
    (h : dictHas d k = true) : dictHas (dictSet d k' v) k = true := by
  unfold dictSet
  split
  · rw [dictHas, List.any_map]
    rw [dictHas, List.any_eq_true] at h
    obtain ⟨p, hmem, hpk⟩ := h
    rw [List.any_eq_true]
    refine ⟨p, hmem, ?_⟩
    simp only [Function.comp_apply]
    by_cases hp : (p.1 == k') = true
    · rw [if_pos hp]
      have h1 : p.1 = k := by simpa using hpk
      have h2 : p.1 = k' := by simpa using hp
      simp [← h2, h1]
    · rw [if_neg hp]; exact hpk
  · rw [dictHas, List.any_append]
    rw [dictHas] at h
    rw [h]
    rfl

theorem dictGet_map_set_self {d : ResDict} {k : String} (v : ℚ)
    (h : dictHas d k = true) :
    dictGet (d.map (fun p => if p.1 == k then (k, v) else p)) k = some v := by
  induction d with
  | nil => simp [dictHas] at h
  | cons p rest ih =>
    cases hp : (p.1 == k) with
    | true => simp [dictGet, List.find?, hp]
    | false =>
      have hrest : dictHas rest k = true := by
        rw [dictHas, List.any_cons, hp] at h
        simpa [dictHas] using h
      simpa [dictGet, List.find?, hp] using ih hrest

theorem dictGet_append_self {d : ResDict} {k : String} (v : ℚ)
    (h : dictHas d k = false) :
    dictGet (d ++ [(k, v)]) k = some v := by
  induction d with
  | nil => simp [dictGet, List.find?]
  | cons p rest ih =>
    rw [dictHas, List.any_cons] at h
    cases hp : (p.1 == k) with
    | true => rw [hp] at h; simp at h
    | false =>
      rw [hp] at h
      have hrest : dictHas rest k = false := by simpa [dictHas] using h
      simpa [dictGet, List.find?, hp] using ih hrest

theorem dictGet_dictSet_self (d : ResDict) (k : String) (v : ℚ) :
    dictGet (dictSet d k v) k = some v := by
  unfold dictSet
  split
  · exact dictGet_map_set_self v (by assumption)
  · exact dictGet_append_self v (by simpa using (by assumption : ¬dictHas d k = true))

theorem dictGet_map_set_ne {k' k : String} (d : ResDict) (v : ℚ) (hne : k' ≠ k) :
    dictGet (d.map (fun p => if p.1 == k' then (k', v) else p)) k = dictGet d k := by
  induction d with
  | nil => simp
  | cons p rest ih =>
    cases hp : (p.1 == k') with
    | true =>
      have hp1 : p.1 = k' := by simpa using hp
      have hpk : (p.1 == k) = false := by simp [hp1, hne]
      have hk'k : (k' == k) = false := by simp [hne]
      simpa [dictGet, List.find?, hp, hpk, hk'k] using ih
    | false =>
      cases hpk : (p.1 == k) with
      | true => simp [dictGet, List.find?, hp, hpk]
      | false => simpa [dictGet, List.find?, hp, hpk] using ih

theorem dictGet_dictSet_ne {k' k : String} (d : ResDict) (v : ℚ) (hne : k' ≠ k) :
    dictGet (dictSet d k' v) k = dictGet d k := by
  unfold dictSet
  split
  · exact dictGet_map_set_ne d v hne
  · have hk'k : (k' == k) = false := by simp [hne]
    rw [dictGet, List.find?_append]
    have hsingle : List.find? (fun p => p.1 == k) [(k', v)] = none := by
      simp [List.find?, hk'k]
    rw [hsingle, Option.or_none, dictGet]

theorem dictGet_dictSet_preserve {d : ResDict} {k : String} {c : ℚ} (k' : String)
    (h : dictGet d k = some c) : dictGet (dictSet d k' c) k = some c := by
  by_cases hk : k' = k
  · subst hk; exact dictGet_dictSet_self d k' c
  · rw [dictGet_dictSet_ne d c hk]; exact h

theorem dictGet_dictUpdate_ones {u : ResDict} {d : ResDict} {k : String}
    (hu : ∀ p ∈ u, p.2 = (1 : ℚ)) (h : dictGet d k = some 1) :
    dictGet (dictUpdate d u) k = some 1 := by
  induction u generalizing d with
  | nil => simpa [dictUpdate] using h
  | cons p rest ih =>
    have hp1 : p.2 = (1 : ℚ) := hu p (by simp)
    have hrest : ∀ q ∈ rest, q.2 = (1 : ℚ) := fun q hq => hu q (by simp [hq])
    show dictGet (dictUpdate (dictSet d p.1 p.2) rest) k = some 1
    exact ih hrest (by rw [hp1]; exact dictGet_dictSet_preserve p.1 h)

/-! Lemmas about the detection helpers. -/

theorem _get_gpu_types_gputil_ones (C : Consts) (names : List String) :
    ∀ p ∈ _get_gpu_types_gputil C names, p.2 = (1 : ℚ) := by
  unfold _get_gpu_types_gputil
  split
  · split
    · intro p hp
      simp only [List.mem_singleton] at hp
      rw [hp]
    · simp
  · simp

theorem _constraints_from_gpu_info_ones (C : Consts) (info_str : Option String) :
    ∀ p ∈ _constraints_from_gpu_info C info_str, p.2 = (1 : ℚ) := by
  unfold _constraints_from_gpu_info
  split
  · simp
  · split
    · intro p hp
      simp only [List.mem_singleton] at hp
      rw [hp]
    · simp

theorem gpuTypesBody_values_one {C : Consts} {env : Env} {t : ResDict}
    (h : gpuTypesBody C env = Except.ok t) : ∀ p ∈ t, p.2 = (1 : ℚ) := by
  unfold gpuTypesBody at h
  split at h
  · cases hg : env.gputil_gpus with
    | error e => rw [hg] at h; simp [Except.map] at h
    | ok names =>
      rw [hg] at h
      simp only [Except.map, Except.ok.injEq] at h
      rw [← h]
      exact _get_gpu_types_gputil_ones C names
  · cases hg : _get_gpu_info_string env with
    | error e => rw [hg] at h; simp [Except.map] at h
    | ok info =>
      rw [hg] at h
      simp only [Except.map, Except.ok.injEq] at h
      rw [← h]
      exact _constraints_from_gpu_info_ones C info

theorem gpuTypesCaught_values_one (C : Consts) (env : Env) :
    ∀ p ∈ gpuTypesCaught C env, p.2 = (1 : ℚ) := by
  unfold gpuTypesCaught
  split
  · exact gpuTypesBody_values_one (by assumption)
  · simp

theorem _get_cuda_info_values_one {C : Consts} {env : Env} {g : Option ℚ} {n : ℚ}
    {t : ResDict} (h : _get_cuda_info C env g = Except.ok (n, t)) :
    ∀ p ∈ t, p.2 = (1 : ℚ) := by
  unfold _get_cuda_info at h
  split at h
  · split at h
    · split at h
      · exact absurd h (by simp)
      · simp only [Except.ok.injEq, Prod.mk.injEq] at h
        rw [← h.2]
        exact gpuTypesCaught_values_one C env
    · simp only [Except.ok.injEq, Prod.mk.injEq] at h
      rw [← h.2]
      exact gpuTypesCaught_values_one C env
  · split at h
    · exact absurd h (by simp)
    · simp only [Except.ok.injEq, Prod.mk.injEq] at h
      rw [← h.2]
      exact gpuTypesCaught_values_one C env

theorem _get_xpu_info_values_one {C : Consts} {env : Env} {g : Option ℚ} {n : ℚ}
    {t : ResDict} (h : _get_xpu_info C env g = Except.ok (n, t)) :
    ∀ p ∈ t, p.2 = (1 : ℚ) := by
  unfold _get_xpu_info at h
  have hsingle : ∀ p ∈ ([(C.RESOURCE_CONSTRAINT_PREF ++ "xpu", (1 : ℚ))] : ResDict),
      p.2 = (1 : ℚ) := by
    intro p hp
    simp only [List.mem_singleton] at hp
    rw [hp]
  split at h
  · split at h
    · split at h
      · exact absurd h (by simp)
      · simp only [Except.ok.injEq, Prod.mk.injEq] at h
        rw [← h.2]
        exact hsingle
    · simp only [Except.ok.injEq, Prod.mk.injEq] at h
      rw [← h.2]
      exact hsingle
  · simp only [Except.ok.injEq, Prod.mk.injEq] at h
    rw [← h.2]
    exact hsingle

theorem acceleratorStep_values_one {C : Consts} {env : Env} {g ng : Option ℚ}
    {t : ResDict} (h : acceleratorStep C env g = Except.ok (ng, t)) :
    ∀ p ∈ t, p.2 = (1 : ℚ) := by
  unfold acceleratorStep at h
  split at h
  · split at h
    · exact absurd h (by simp)
    · simp only [Except.ok.injEq, Prod.mk.injEq] at h
      rw [← h.2]
      exact _get_cuda_info_values_one (by assumption)
  · split at h
    · split at h
      · exact absurd h (by simp)
      · simp only [Except.ok.injEq, Prod.mk.injEq] at h
        rw [← h.2]
        exact _get_xpu_info_values_one (by assumption)
    · simp only [Except.ok.injEq, Prod.mk.injEq] at h
      rw [← h.2]
      simp

theorem _get_cuda_info_error_cases {C : Consts} {env : Env} {g : Option ℚ}
    {e : ResolveErr} (h : _get_cuda_info C env g = Except.error e) :
    e = ResolveErr.mismatchedVisibleDeviceCount "GPU" ∨
      e = ResolveErr.detectionException "GPU" := by
  unfold _get_cuda_info at h
  split at h
  · split at h
    · split at h
      · simp only [Except.error.injEq] at h
        exact Or.inl h.symm
      · exact absurd h (by simp)
    · exact absurd h (by simp)
  · split at h
    · simp only [Except.error.injEq] at h
      exact Or.inr h.symm
    · exact absurd h (by simp)

theorem _get_xpu_info_error_cases {C : Consts} {env : Env} {g : Option ℚ}
    {e : ResolveErr} (h : _get_xpu_info C env g = Except.error e) :
    e = ResolveErr.mismatchedVisibleDeviceCount "XPU" := by
  unfold _get_xpu_info at h
  split at h
  · split at h
    · split at h
      · simp only [Except.error.injEq] at h
        exact h.symm
      · exact absurd h (by simp)
    · exact absurd h (by simp)
  · exact absurd h (by simp)

theorem acceleratorStep_error_cases {C : Consts} {env : Env} {g : Option ℚ}
    {e : ResolveErr} (h : acceleratorStep C env g = Except.error e) :
    (∃ s, e = ResolveErr.mismatchedVisibleDeviceCount s) ∨
      (∃ s, e = ResolveErr.detectionException s) := by
  unfold acceleratorStep at h
  split at h
  · split at h
    · simp only [Except.error.injEq] at h
      subst h
      rcases _get_cuda_info_error_cases (by assumption) with h1 | h1
      · exact Or.inl ⟨"GPU", h1⟩
      · exact Or.inr ⟨"GPU", h1⟩
    · exact absurd h (by simp)
  · split at h
    · split at h
      · simp only [Except.error.injEq] at h
        subst h
        exact Or.inl ⟨"XPU", _get_xpu_info_error_cases (by assumption)⟩
      · exact absurd h (by simp)
    · exact absurd h (by simp)

theorem acceleratorStep_other {C : Consts} {env : Env} (g : Option ℚ)
    (h1 : env.accelerator ≠ "CUDA") (h2 : env.accelerator ≠ "XPU") :
    acceleratorStep C env g = Except.ok (none, []) := by
  unfold acceleratorStep
  simp [h1, h2]

/-! Lemmas about the to_resource_dict validation loop. -/

theorem checkQuantities_ok_iff {C : Consts} {l : ResDict} :
    checkQuantities C l = Except.ok () ↔
      ∀ kv ∈ l, kv.2.den = 1 ∧ 0 ≤ kv.2 ∧ kv.2 ≤ C.MAX_RESOURCE_QUANTITY := by
  induction l with
  | nil => simp [checkQuantities]
  | cons p rest ih =>
    obtain ⟨label, q⟩ := p
    rw [checkQuantities]
    split_ifs with h1 h2 h3
    · simp [List.forall_mem_cons, h1]
    · simp [List.forall_mem_cons, h2, show ¬(0 : ℚ) ≤ q from not_le.mpr h2]
    · simp [List.forall_mem_cons, show ¬q ≤ C.MAX_RESOURCE_QUANTITY from not_le.mpr h3]
    · rw [ih]
      simp [List.forall_mem_cons, not_not.mp h1, not_lt.mp h2, not_lt.mp h3]

theorem checkQuantities_error_of {C : Consts} {l : ResDict} {kv : String × ℚ}
    (hm : kv ∈ l) (hbad : kv.2.den ≠ 1 ∨ kv.2 < 0 ∨ C.MAX_RESOURCE_QUANTITY < kv.2) :
    ∃ e, checkQuantities C l = Except.error e := by
  cases hres : checkQuantities C l with
  | error e => exact ⟨e, rfl⟩
  | ok u =>
    cases u
    have hkv := checkQuantities_ok_iff.mp hres kv hm
    rcases hbad with hb | hb | hb
    · exact absurd hkv.1 hb
    · exact absurd hkv.2.1 (not_le.mpr hb)
    · exact absurd hkv.2.2 (not_le.mpr hb)

/-! Evaluation lemmas for pyInt on integral inputs. -/

theorem ratFloor_intCast (n : ℤ) : ratFloor ((n : ℤ) : ℚ) = n := by
  unfold ratFloor
  rw [Rat.num_intCast, Rat.den_intCast, Nat.cast_one, Int.fdiv_one]

theorem pyIntQ_intCast (n : ℤ) : pyIntQ ((n : ℤ) : ℚ) = (n : ℚ) := by
  unfold pyIntQ pyInt
  split_ifs with h
  · rw [ratFloor_intCast]
  · rw [← Int.cast_neg, ratFloor_intCast]
    push_cast
    ring

/-! Concrete fixtures, valued with the constants that
ray._private.ray_constants defines, used by the witnesses below. -/

def rayConsts : Consts where
  DEFAULT_OBJECT_STORE_MEMORY_PROPORTION := 3 / 10
  MAC_DEGRADED_PERF_MMAP_SIZE_LIMIT := 2147483648
  DEFAULT_OBJECT_STORE_MAX_MEMORY_BYTES := 200000000000
  REQUIRE_SHM_SIZE_THRESHOLD := 10000000000
  DEFAULT_REDIS_MAX_MEMORY_BYTES := 10000000000
  REDIS_MINIMUM_MEMORY_BYTES := 10000000
  MAX_RESOURCE_QUANTITY := 100000000000000
  RESOURCE_CONSTRAINT_PREF := "accelerator_type:"

/-- A Linux host with one XPU accelerator, 100 GB of system memory of
which 50 MB is still available, and no GPU enumeration capabilities. -/
def baseEnv : Env where
  auto_node_ip := "172.23.42.1"
  os_num_cpus := 8
  accelerator := "XPU"
  platform := "linux"
  system_memory := 100000000000
  avail_memory := 50000000
  shared_memory_bytes := 100000000000
  cuda_visible_devices := none
  xpu_visible_devices := none
  gputil_spec_found := false
  gputil_gpus := Except.error ()
  nvidia_proc_gpus_dirs := none
  gpu_info_file_content := Except.error ()
  wmic_output := Except.error ()
  dpctl_devices := some 1

/-! Case-analysis lemmas for resolve. -/

theorem resolve_cases (C : Consts) (env : Env) (self : ResourceSpec) (is_head : Bool)
    (nip : Option String) :
    (∃ n, resolve C env self is_head nip = Except.error (ResolveErr.reservedResourceName n)) ∨
      resolve C env self is_head nip =
        afterNaming C env self is_head (builtResources env self is_head nip) := by
  unfold resolve
  dsimp only
  split_ifs with h1 h2 h3 h4 h5 h6
  · exact Or.inl ⟨"CPU", rfl⟩
  · exact Or.inl ⟨"GPU", rfl⟩
  · exact Or.inl ⟨"memory", rfl⟩
  · exact Or.inl ⟨"object_store_memory", rfl⟩
  · exact Or.inl ⟨HEAD_NODE_RESOURCE_NAME, rfl⟩
  · exact Or.inr (by unfold builtResources; rw [if_pos h6])
  · exact Or.inr (by unfold builtResources; rw [if_neg h6])

theorem resolve_eq_afterNaming (C : Consts) (env : Env) (self : ResourceSpec)
    (is_head : Bool) (nip : Option String)
    (h1 : dictHas ((self.resources).getD []) "CPU" = false)
    (h2 : dictHas ((self.resources).getD []) "GPU" = false)
    (h3 : dictHas ((self.resources).getD []) "memory" = false)
    (h4 : dictHas ((self.resources).getD []) "object_store_memory" = false)
    (h5 : dictHas (dictSet ((self.resources).getD [])
        (NODE_ID_PREF ++ nip.getD env.auto_node_ip) 1) HEAD_NODE_RESOURCE_NAME = false) :
    resolve C env self is_head nip =
      afterNaming C env self is_head (builtResources env self is_head nip) := by
  unfold resolve builtResources
  simp [h1, h2, h3, h4, h5]

/-! Claim theorems. -/

/-- C10: when the caller supplies an explicit non-null task-memory value,
resolve never raises the insufficient-memory error, even if that value is
below both the 100 MB absolute floor and 5% of total system memory: the
floor check runs only on the default-computation path. -/
theorem claim_C10_explicit_memory_skips_floor (C : Consts) (env : Env)
    (self : ResourceSpec) (is_head : Bool) (nip : Option String) (v : ℚ)
    (h : self.memory = some v) :
    resolve C env self is_head nip ≠ Except.error ResolveErr.insufficientMemory := by
  intro hcontra
  rcases resolve_cases C env self is_head nip with ⟨n, hn⟩ | heq
  · rw [hn] at hcontra
    exact absurd hcontra (by simp)
  · rw [heq] at hcontra
    unfold afterNaming at hcontra
    dsimp only at hcontra
    split at hcontra
    · next e heqa =>
        simp only [Except.error.injEq] at hcontra
        subst hcontra
        rcases acceleratorStep_error_cases heqa with ⟨s, hs⟩ | ⟨s, hs⟩ <;> simp at hs
    · split at hcontra
      · exact absurd hcontra (by simp)
      · rw [h] at hcontra
        simp only [memoryStep] at hcontra
        split at hcontra
        · exact absurd hcontra (by simp)
        · exact absurd hcontra (by simp)

/-- C10 witness: a declaration with memory explicitly 1000 bytes (far
below both floors) resolves without the insufficient-memory error. -/
theorem claim_C10_witness :
    resolve rayConsts baseEnv ⟨some 4, some 1, some 1000, some 1000, none, none⟩
      false none ≠ Except.error ResolveErr.insufficientMemory :=
  claim_C10_explicit_memory_skips_floor rayConsts baseEnv
    ⟨some 4, some 1, some 1000, some 1000, none, none⟩ false none 1000 rfl

/-- C2: resolve fails with the reserved-resource-name error whenever the
caller's custom resource mapping contains CPU, GPU, memory,
object_store_memory, or the head-node marker name; in all of these
collision cases resolution returns an error, never a declaration. -/
theorem claim_C2_reserved_names (C : Consts) (env : Env) (self : ResourceSpec)
    (is_head : Bool) (nip : Option String)
    (h : dictHas ((self.resources).getD []) "CPU" = true ∨
      dictHas ((self.resources).getD []) "GPU" = true ∨
      dictHas ((self.resources).getD []) "memory" = true ∨
      dictHas ((self.resources).getD []) "object_store_memory" = true ∨
      dictHas ((self.resources).getD []) HEAD_NODE_RESOURCE_NAME = true) :
    ∃ n, resolve C env self is_head nip =
      Except.error (ResolveErr.reservedResourceName n) := by
  rcases h with hc | hg | hm | ho | hh
  · unfold resolve
    dsimp only
    split_ifs
    exact ⟨"CPU", rfl⟩
  · unfold resolve
    dsimp only
    split_ifs with h1
    · exact ⟨"CPU", rfl⟩
    · exact ⟨"GPU", rfl⟩
  · unfold resolve
    dsimp only
    split_ifs with h1 h2
    · exact ⟨"CPU", rfl⟩
    · exact ⟨"GPU", rfl⟩
    · exact ⟨"memory", rfl⟩
  · unfold resolve
    dsimp only
    split_ifs with h1 h2 h3
    · exact ⟨"CPU", rfl⟩
    · exact ⟨"GPU", rfl⟩
    · exact ⟨"memory", rfl⟩
    · exact ⟨"object_store_memory", rfl⟩
  · unfold resolve
    dsimp only
    split_ifs with h1 h2 h3 h4 h5 h6
    · exact ⟨"CPU", rfl⟩
    · exact ⟨"GPU", rfl⟩
    · exact ⟨"memory", rfl⟩
    · exact ⟨"object_store_memory", rfl⟩
    · exact ⟨HEAD_NODE_RESOURCE_NAME, rfl⟩
    all_goals exact absurd (dictHas_dictSet_of _ 1 hh) (by simpa using h5)

/-- C2 witness: a custom mapping containing CPU is rejected with a
reserved-resource-name error. -/
theorem claim_C2_witness :
    ∃ n, resolve rayConsts baseEnv ⟨none, none, none, none, some [("CPU", 1)], none⟩
      false none = Except.error (ResolveErr.reservedResourceName n) :=
  claim_C2_reserved_names rayConsts baseEnv
    ⟨none, none, none, none, some [("CPU", 1)], none⟩ false none (Or.inl (by decide))

/-- C6: for each accelerator family, when a requested count and a
visibility allow-list are both present, detection fails with the
mismatched-visible-device-count error exactly when the requested count
exceeds the allow-list length, and otherwise passes this check and
returns the requested count. -/
theorem claim_C6_visible_device_count (C : Consts) (env : Env) (n : ℚ)
    (idsG idsX : List String)
    (hg : env.cuda_visible_devices = some idsG)
    (hx : env.xpu_visible_devices = some idsX) :
    ((idsG.length : ℚ) < n →
        _get_cuda_info C env (some n) =
          Except.error (ResolveErr.mismatchedVisibleDeviceCount "GPU")) ∧
      (n ≤ (idsG.length : ℚ) →
        _get_cuda_info C env (some n) = Except.ok (n, gpuTypesCaught C env)) ∧
      ((idsX.length : ℚ) < n →
        _get_xpu_info C env (some n) =
          Except.error (ResolveErr.mismatchedVisibleDeviceCount "XPU")) ∧
      (n ≤ (idsX.length : ℚ) →
        _get_xpu_info C env (some n) =
          Except.ok (n, [(C.RESOURCE_CONSTRAINT_PREF ++ "xpu", 1)])) := by
  refine ⟨?_, ?_, ?_, ?_⟩ <;> intro hn
  · simp only [_get_cuda_info, hg]
    rw [if_pos hn]
  · simp only [_get_cuda_info, hg]
    rw [if_neg (not_lt.mpr hn)]
  · simp only [_get_xpu_info, hx]
    rw [if_pos hn]
  · simp only [_get_xpu_info, hx]
    rw [if_neg (not_lt.mpr hn)]

/-- baseEnv with a two-entry visibility allow-list for both families. -/
def allowTwoEnv : Env :=
  { baseEnv with cuda_visible_devices := some ["0", "1"], xpu_visible_devices := some ["0", "1"] }

/-- C6 witness: requesting 4 devices against a 2-entry allow-list fails
with the mismatched-visible-device-count error for both families. -/
theorem claim_C6_witness :
    _get_cuda_info rayConsts allowTwoEnv (some 4) =
      Except.error (ResolveErr.mismatchedVisibleDeviceCount "GPU") ∧
    _get_xpu_info rayConsts allowTwoEnv (some 4) =
      Except.error (ResolveErr.mismatchedVisibleDeviceCount "XPU") := by
  have h := claim_C6_visible_device_count rayConsts allowTwoEnv 4 ["0", "1"] ["0", "1"]
    rfl rfl
  exact ⟨h.1 (by norm_num), h.2.2.1 (by norm_num)⟩

/-- C3: every mapping returned by to_resource_dict has no zero entry, no
non-whole entry, no negative entry and no entry above the configured
maximum; and on a resolved declaration any assembled nonzero entry
violating the whole-number, sign or maximum condition makes
to_resource_dict return an error instead of a mapping. -/
theorem claim_C3_resource_dict_validation (C : Consts) (self : ResourceSpec) :
    (∀ d, ResourceSpec.to_resource_dict C self = Except.ok d →
        ∀ kv ∈ d, kv.2 ≠ 0 ∧ kv.2.den = 1 ∧ 0 ≤ kv.2 ∧
          kv.2 ≤ C.MAX_RESOURCE_QUANTITY) ∧
      (∀ ncpu ngpu mem osm res rmm,
        self = ⟨some ncpu, some ngpu, some mem, some osm, some res, some rmm⟩ →
        ∀ kv ∈ resourceDictEntries res ncpu ngpu mem osm,
          (kv.2.den ≠ 1 ∨ kv.2 < 0 ∨ C.MAX_RESOURCE_QUANTITY < kv.2) →
          ∃ e, ResourceSpec.to_resource_dict C self = Except.error e) := by
  constructor
  · intro d hd kv hkv
    unfold ResourceSpec.to_resource_dict at hd
    split at hd
    · dsimp only at hd
      split at hd
      · exact absurd hd (by simp)
      · next u heq =>
          cases u
          simp only [Except.ok.injEq] at hd
          subst hd
          have hmem := hkv
          have hnz : kv.2 ≠ 0 := by
            unfold resourceDictEntries at hmem
            have := (List.mem_filter.mp hmem).2
            simpa using this
          exact ⟨hnz, checkQuantities_ok_iff.mp heq kv hkv⟩
    · exact absurd hd (by simp)
  · intro ncpu ngpu mem osm res rmm hself kv hkv hbad
    subst hself
    unfold ResourceSpec.to_resource_dict
    dsimp only
    obtain ⟨e, he⟩ := checkQuantities_error_of hkv hbad
    rw [he]
    exact ⟨e, rfl⟩

/-- C3 witness: a resolved declaration carrying a negative custom
resource value makes to_resource_dict return an error. -/
theorem claim_C3_witness :
    ∃ e, ResourceSpec.to_resource_dict rayConsts
      ⟨some 4, some 0, some 1000, some 2000, some [("bad", -3)], some 100⟩ =
        Except.error e :=
  (claim_C3_resource_dict_validation rayConsts
      ⟨some 4, some 0, some 1000, some 2000, some [("bad", -3)], some 100⟩).2
    4 0 1000 2000 [("bad", -3)] 100 rfl ("bad", -3)
    (by
      have h1 : dictSet [("bad", (-3 : ℚ))] "CPU" 4 = [("bad", -3), ("CPU", 4)] := by
        unfold dictSet
        rw [if_neg (by decide)]
        rfl
      have h2 : dictSet [("bad", (-3 : ℚ)), ("CPU", 4)] "GPU" 0 =
          [("bad", -3), ("CPU", 4), ("GPU", 0)] := by
        unfold dictSet
        rw [if_neg (by decide)]
        rfl
      have h3 : dictSet [("bad", (-3 : ℚ)), ("CPU", 4), ("GPU", 0)] "memory"
          (pyIntQ 1000) = [("bad", -3), ("CPU", 4), ("GPU", 0), ("memory", pyIntQ 1000)] := by
        unfold dictSet
        rw [if_neg (by decide)]
        rfl
      have h4 : dictSet [("bad", (-3 : ℚ)), ("CPU", 4), ("GPU", 0),
          ("memory", pyIntQ 1000)] "object_store_memory" (pyIntQ 2000) =
          [("bad", -3), ("CPU", 4), ("GPU", 0), ("memory", pyIntQ 1000),
            ("object_store_memory", pyIntQ 2000)] := by
        unfold dictSet
        rw [if_neg (by decide)]
        rfl
      unfold resourceDictEntries
      rw [h1, h2, h3, h4]
      exact List.mem_filter.mpr ⟨by simp, by norm_num⟩)
    (Or.inr (Or.inl (by norm_num)))

/-- C4: when the object-store memory field is unset, every successful
resolution carries as object-store memory the default — int(available ×
proportion), clamped on the Mac platform to the degraded-performance
ceiling, then clamped to a cap that on Linux is min(max(shm × 0.95,
required threshold), absolute max) and elsewhere the absolute max; a
default exceeding the cap is silently reduced to the cap and resolution
still succeeds. -/
theorem claim_C4_object_store_default (C : Consts) (env : Env) (self : ResourceSpec)
    (is_head : Bool) (nip : Option String) (spec : ResourceSpec)
    (hunset : self.object_store_memory = none)
    (hok : resolve C env self is_head nip = Except.ok spec) :
    spec.object_store_memory = some (
      let osm0 := pyIntQ (env.avail_memory * C.DEFAULT_OBJECT_STORE_MEMORY_PROPORTION)
      let osm1 := if env.platform == "darwin" then
          min osm0 C.MAC_DEGRADED_PERF_MMAP_SIZE_LIMIT
        else osm0
      let cap := if env.platform == "linux" || env.platform == "linux2" then
          min (max C.REQUIRE_SHM_SIZE_THRESHOLD (env.shared_memory_bytes * (19 / 20)))
            C.DEFAULT_OBJECT_STORE_MAX_MEMORY_BYTES
        else C.DEFAULT_OBJECT_STORE_MAX_MEMORY_BYTES
      if cap < osm1 then cap else osm1) := by
  rcases resolve_cases C env self is_head nip with ⟨n, hn⟩ | heq
  · rw [hn] at hok
    exact absurd hok (by simp)
  · rw [heq] at hok
    unfold afterNaming at hok
    dsimp only at hok
    split at hok
    · exact absurd hok (by simp)
    · split at hok
      · exact absurd hok (by simp)
      · split at hok
        · exact absurd hok (by simp)
        · split at hok
          · exact absurd hok (by simp)
          · simp only [Except.ok.injEq] at hok
            subst hok
            show some ((self.object_store_memory).getD (objectStoreDefault C env)) = _
            rw [hunset]
            rfl

/-- C5: when the metadata-store (redis) cap field is unset, every
successful resolution carries the default min(absolute default cap,
max(int(available × 0.10), minimum required)); and whenever the resolved
cap value — default or caller-supplied — is below the minimum required
threshold, resolution (having passed the naming checks and the
accelerator step) fails with the redis-below-minimum error regardless of
the remaining declaration fields. -/
theorem claim_C5_redis_default_and_minimum (C : Consts) (env : Env)
    (self : ResourceSpec) (is_head : Bool) (nip : Option String) :
    ((self.redis_max_memory = none) → ∀ spec,
        resolve C env self is_head nip = Except.ok spec →
        spec.redis_max_memory = some (min C.DEFAULT_REDIS_MAX_MEMORY_BYTES
          (max (pyIntQ (env.avail_memory * (1 / 10))) C.REDIS_MINIMUM_MEMORY_BYTES))) ∧
      (dictHas ((self.resources).getD []) "CPU" = false →
        dictHas ((self.resources).getD []) "GPU" = false →
        dictHas ((self.resources).getD []) "memory" = false →
        dictHas ((self.resources).getD []) "object_store_memory" = false →
        dictHas (dictSet ((self.resources).getD [])
          (NODE_ID_PREF ++ nip.getD env.auto_node_ip) 1) HEAD_NODE_RESOURCE_NAME = false →
        (∃ r, acceleratorStep C env self.num_gpus = Except.ok r) →
        (self.redis_max_memory).getD (redisDefault C env) < C.REDIS_MINIMUM_MEMORY_BYTES →
        resolve C env self is_head nip = Except.error ResolveErr.redisMemoryBelowMinimum) := by
  constructor
  · intro hunset spec hok
    rcases resolve_cases C env self is_head nip with ⟨n, hn⟩ | heq
    · rw [hn] at hok
      exact absurd hok (by simp)
    · rw [heq] at hok
      unfold afterNaming at hok
      dsimp only at hok
      split at hok
      · exact absurd hok (by simp)
      · split at hok
        · exact absurd hok (by simp)
        · split at hok
          · exact absurd hok (by simp)
          · split at hok
            · exact absurd hok (by simp)
            · simp only [Except.ok.injEq] at hok
              subst hok
              show some ((self.redis_max_memory).getD (redisDefault C env)) = _
              rw [hunset]
              rfl
  · intro h1 h2 h3 h4 h5 hacc hlow
    rw [resolve_eq_afterNaming C env self is_head nip h1 h2 h3 h4 h5]
    obtain ⟨⟨g, t⟩, ha⟩ := hacc
    unfold afterNaming
    dsimp only
    rw [ha]
    dsimp only
    rw [if_pos hlow]

/-- C5 witness: a caller-supplied redis cap of 100 bytes fails with the
redis-below-minimum error. -/
theorem claim_C5_witness :
    resolve rayConsts baseEnv ⟨some 4, some 1, some 1000, some 2000, none, some 100⟩
      false none = Except.error ResolveErr.redisMemoryBelowMinimum :=
  (claim_C5_redis_default_and_minimum rayConsts baseEnv
      ⟨some 4, some 1, some 1000, some 2000, none, some 100⟩ false none).2
    (by decide) (by decide) (by decide) (by decide) (by decide) ⟨_, rfl⟩
    (by norm_num [rayConsts])

/-- C1: with the task-memory field unset (and resolution past the naming,
accelerator and redis steps), resolve computes task memory as available
memory minus object-store memory minus (on the head node) the redis cap,
and fails with the insufficient-memory error exactly when that residual
is below both 100 MB and 5% of total system memory; a residual below
100 MB but at least 5% of system memory does not trigger the error. -/
theorem claim_C1_memory_floor (C : Consts) (env : Env) (self : ResourceSpec)
    (is_head : Bool) (nip : Option String)
    (hmem : self.memory = none)
    (h1 : dictHas ((self.resources).getD []) "CPU" = false)
    (h2 : dictHas ((self.resources).getD []) "GPU" = false)
    (h3 : dictHas ((self.resources).getD []) "memory" = false)
    (h4 : dictHas ((self.resources).getD []) "object_store_memory" = false)
    (h5 : dictHas (dictSet ((self.resources).getD [])
      (NODE_ID_PREF ++ nip.getD env.auto_node_ip) 1) HEAD_NODE_RESOURCE_NAME = false)
    (hacc : ∃ r, acceleratorStep C env self.num_gpus = Except.ok r)
    (hredis : ¬ (self.redis_max_memory).getD (redisDefault C env) <
      C.REDIS_MINIMUM_MEMORY_BYTES) :
    (resolve C env self is_head nip = Except.error ResolveErr.insufficientMemory ↔
      (env.avail_memory - (self.object_store_memory).getD (objectStoreDefault C env) -
          (if is_head then (self.redis_max_memory).getD (redisDefault C env) else 0) <
          100000000 ∧
        env.avail_memory - (self.object_store_memory).getD (objectStoreDefault C env) -
          (if is_head then (self.redis_max_memory).getD (redisDefault C env) else 0) <
          (1 / 20) * env.system_memory)) ∧
      (∀ spec, resolve C env self is_head nip = Except.ok spec →
        spec.memory = some (env.avail_memory -
          (self.object_store_memory).getD (objectStoreDefault C env) -
          (if is_head then (self.redis_max_memory).getD (redisDefault C env) else 0))) := by
  rw [resolve_eq_afterNaming C env self is_head nip h1 h2 h3 h4 h5]
  obtain ⟨⟨g, t⟩, ha⟩ := hacc
  unfold afterNaming
  dsimp only
  rw [ha]
  dsimp only
  rw [if_neg hredis, hmem]
  simp only [memoryStep]
  by_cases hcond :
      env.avail_memory - (self.object_store_memory).getD (objectStoreDefault C env) -
          (if is_head then (self.redis_max_memory).getD (redisDefault C env) else 0) <
          100000000 ∧
        env.avail_memory - (self.object_store_memory).getD (objectStoreDefault C env) -
          (if is_head then (self.redis_max_memory).getD (redisDefault C env) else 0) <
          (1 / 20) * env.system_memory
  · rw [if_pos hcond]
    constructor
    · simpa using hcond
    · intro spec hok
      exact absurd hok (by simp)
  · rw [if_neg hcond]
    constructor
    · constructor
      · intro hb
        cases g with
        | none => exact absurd hb (by simp)
        | some g0 => exact absurd hb (by simp)
      · intro hb
        exact absurd hb hcond
    · intro spec hok
      cases g with
      | none => exact absurd hok (by simp)
      | some g0 =>
        simp only [Except.ok.injEq] at hok
        subst hok
        rfl

/-- C1 witness: 50 MB available, 49 MB object store, worker node, 100 GB
system memory — the 1 MB residual is below both floors and resolution
fails with the insufficient-memory error. -/
theorem claim_C1_witness :
    resolve rayConsts baseEnv
        ⟨some 4, some 1, none, some 49000000, none, some 10000000⟩ false none =
      Except.error ResolveErr.insufficientMemory :=
  (claim_C1_memory_floor rayConsts baseEnv
      ⟨some 4, some 1, none, some 49000000, none, some 10000000⟩ false none rfl
      (by decide) (by decide) (by decide) (by decide) (by decide) ⟨_, rfl⟩
      (by norm_num [rayConsts])).1.mpr (by norm_num [baseEnv])

/-- A Linux host with 1 TB available memory and 10 TB of system memory,
whose shared-memory derived cap (95 GB) is below the default object
store proportion of available memory (300 GB). -/
def c4Env : Env :=
  { baseEnv with avail_memory := 1000000000000, system_memory := 10000000000000 }

/-- C4 witness: with the object store unset on c4Env the computed
default (300 GB) exceeds the shared-memory cap (95 GB), and resolution
still succeeds with the cap as the object-store size. -/
theorem claim_C4_witness :
    ∃ spec, resolve rayConsts c4Env
        ⟨some 4, some 1, some 5000, none, none, some 10000000⟩ false none =
        Except.ok spec ∧
      spec.object_store_memory = some 95000000000 := by
  obtain ⟨spec, hspec⟩ : ∃ spec, resolve rayConsts c4Env
      ⟨some 4, some 1, some 5000, none, none, some 10000000⟩ false none =
      Except.ok spec := by
    rw [resolve_eq_afterNaming rayConsts c4Env _ false none (by decide) (by decide)
      (by decide) (by decide) (by decide)]
    unfold afterNaming
    dsimp only [Option.getD]
    rw [show acceleratorStep rayConsts c4Env (some 1) =
      Except.ok (some 1, [("accelerator_type:" ++ "xpu", 1)]) from rfl]
    dsimp only
    rw [if_neg (show ¬ (10000000 : ℚ) < rayConsts.REDIS_MINIMUM_MEMORY_BYTES from
      by norm_num [rayConsts])]
    rw [show memoryStep c4Env (some 5000) (objectStoreDefault rayConsts c4Env)
      10000000 false = Except.ok 5000 from rfl]
    exact ⟨_, rfl⟩
  refine ⟨spec, hspec, ?_⟩
  rw [claim_C4_object_store_default rayConsts c4Env
    ⟨some 4, some 1, some 5000, none, none, some 10000000⟩ false none spec rfl hspec]
  have hp : pyIntQ (c4Env.avail_memory * rayConsts.DEFAULT_OBJECT_STORE_MEMORY_PROPORTION) =
      300000000000 := by
    rw [show c4Env.avail_memory * rayConsts.DEFAULT_OBJECT_STORE_MEMORY_PROPORTION =
      ((300000000000 : ℤ) : ℚ) from by norm_num [c4Env, baseEnv, rayConsts], pyIntQ_intCast]
    norm_num
  simp only [hp]
  rw [if_neg (show ¬ (c4Env.platform == "darwin") = true from by decide)]
  rw [if_pos (show (c4Env.platform == "linux" || c4Env.platform == "linux2") = true from
    by decide)]
  norm_num [rayConsts, c4Env, baseEnv, min_def, max_def]

/-- C7: every declaration that resolve returns is fully resolved — all
six fields are non-null — and its custom resource mapping carries the
node-identity resource node:(node address) with value 1. -/
theorem claim_C7_resolved_postcondition (C : Consts) (env : Env) (self : ResourceSpec)
    (is_head : Bool) (nip : Option String) (spec : ResourceSpec)
    (hok : resolve C env self is_head nip = Except.ok spec) :
    spec.isResolved = true ∧
      ∃ res, spec.resources = some res ∧
        dictGet res (NODE_ID_PREF ++ nip.getD env.auto_node_ip) = some 1 := by
  rcases resolve_cases C env self is_head nip with ⟨n, hn⟩ | heq
  · rw [hn] at hok
    exact absurd hok (by simp)
  · rw [heq] at hok
    unfold afterNaming at hok
    dsimp only at hok
    split at hok
    · exact absurd hok (by simp)
    · next g t heqacc =>
      split at hok
      · exact absurd hok (by simp)
      · split at hok
        · exact absurd hok (by simp)
        · split at hok
          · exact absurd hok (by simp)
          · simp only [Except.ok.injEq] at hok
            subst hok
            refine ⟨rfl, _, rfl, ?_⟩
            have ht : ∀ p ∈ t, p.2 = (1 : ℚ) := acceleratorStep_values_one heqacc
            apply dictGet_dictUpdate_ones ht
            unfold builtResources
            dsimp only
            split
            · exact dictGet_dictSet_preserve _ (dictGet_dictSet_self _ _ _)
            · exact dictGet_dictSet_self _ _ _

/-- C7 witness: a concrete worker-node resolution succeeds, is fully
resolved, and carries node:172.23.42.1 with value 1. -/
theorem claim_C7_witness :
    ∃ spec, resolve rayConsts baseEnv
        ⟨some 4, some 1, some 1000, some 2000, none, some 10000000⟩ false none =
        Except.ok spec ∧
      spec.isResolved = true ∧
      ∃ res, spec.resources = some res ∧
        dictGet res (NODE_ID_PREF ++ "172.23.42.1") = some 1 := by
  obtain ⟨spec, hspec⟩ : ∃ spec, resolve rayConsts baseEnv
      ⟨some 4, some 1, some 1000, some 2000, none, some 10000000⟩ false none =
      Except.ok spec := by
    rw [resolve_eq_afterNaming rayConsts baseEnv _ false none (by decide) (by decide)
      (by decide) (by decide) (by decide)]
    unfold afterNaming
    dsimp only [Option.getD]
    rw [show acceleratorStep rayConsts baseEnv (some 1) =
      Except.ok (some 1, [("accelerator_type:" ++ "xpu", 1)]) from rfl]
    dsimp only
    rw [if_neg (show ¬ (10000000 : ℚ) < rayConsts.REDIS_MINIMUM_MEMORY_BYTES from
      by norm_num [rayConsts])]
    rw [show memoryStep baseEnv (some 1000) 2000 10000000 false = Except.ok 1000 from rfl]
    exact ⟨_, rfl⟩
  have h := claim_C7_resolved_postcondition rayConsts baseEnv
    ⟨some 4, some 1, some 1000, some 2000, none, some 10000000⟩ false none spec hspec
  exact ⟨spec, hspec, h.1, h.2⟩

/-- C8: in every environment whose GPU detection fails through one of
the non-fatal modes — the optional enumeration library is absent and the
driver directory is missing, or the type-detection body raises — the
CUDA detection returns an empty type-constraint set with a zero or
fallback count instead of propagating an exception, so the accelerator
step of resolve cannot fail on those detection failures. -/
theorem claim_C8_detection_fault_tolerance (C : Consts) (env : Env) :
    ((env.gputil_spec_found = false) → (env.nvidia_proc_gpus_dirs = none) →
      ((env.platform = "win32") → ∃ ls, env.wmic_output = Except.ok ls) →
      (∃ k, _get_cuda_info C env none = Except.ok (k, [])) ∧
        (env.accelerator = "CUDA" → ∃ r, acceleratorStep C env none = Except.ok r)) ∧
      (∀ c : ℚ, gpuTypesBody C env = Except.error () →
        (env.cuda_visible_devices = none ∨
          ∃ ids, env.cuda_visible_devices = some ids ∧ c ≤ (ids.length : ℚ)) →
        _get_cuda_info C env (some c) = Except.ok (c, [])) ∧
      (∀ k0, gpuTypesBody C env = Except.error () →
        _autodetect_num_gpus env = Except.ok k0 →
        ∃ k, _get_cuda_info C env none = Except.ok (k, [])) := by
  refine ⟨?_, ?_, ?_⟩
  · intro henum hdrv hwin
    have hcaught : gpuTypesCaught C env = [] := by
      unfold gpuTypesCaught gpuTypesBody
      rw [if_neg (by simp [henum])]
      unfold _get_gpu_info_string
      by_cases hplat : env.platform.startsWith "linux" = true
      · rw [if_pos hplat, hdrv]
        rfl
      · rw [if_neg hplat]
        rfl
    have hauto : ∃ k0, _autodetect_num_gpus env = Except.ok k0 := by
      unfold _autodetect_num_gpus
      rw [if_neg (by simp [henum])]
      by_cases hplat : env.platform.startsWith "linux" = true
      · rw [if_pos hplat]
        exact ⟨_, rfl⟩
      · rw [if_neg hplat]
        by_cases hwin32 : (env.platform == "win32") = true
        · obtain ⟨ls, hls⟩ := hwin (by simpa using hwin32)
          rw [if_pos hwin32, hls]
          exact ⟨_, rfl⟩
        · rw [if_neg hwin32]
          exact ⟨0, rfl⟩
    obtain ⟨k0, hk0⟩ := hauto
    have hmain : ∃ k, _get_cuda_info C env none = Except.ok (k, []) := by
      unfold _get_cuda_info
      dsimp only
      rw [hk0]
      dsimp only
      rw [hcaught]
      exact ⟨_, rfl⟩
    refine ⟨hmain, ?_⟩
    intro hcuda
    obtain ⟨k, hk⟩ := hmain
    unfold acceleratorStep
    rw [if_pos (by simp [hcuda]), hk]
    exact ⟨_, rfl⟩
  · intro c herr hvis
    have hcaught : gpuTypesCaught C env = [] := by
      unfold gpuTypesCaught
      rw [herr]
    unfold _get_cuda_info
    dsimp only
    rcases hvis with hnone | ⟨ids, hids, hle⟩
    · rw [hnone]
      dsimp only
      rw [hcaught]
    · rw [hids]
      dsimp only
      rw [if_neg (not_lt.mpr hle), hcaught]
  · intro k0 herr hk0
    have hcaught : gpuTypesCaught C env = [] := by
      unfold gpuTypesCaught
      rw [herr]
    unfold _get_cuda_info
    dsimp only
    rw [hk0]
    dsimp only
    rw [hcaught]
    exact ⟨_, rfl⟩

/-- baseEnv with the GPUtil module importable but its device query
raising, so the type-detection body raises. -/
def cudaFailEnv : Env :=
  { baseEnv with gputil_spec_found := true, gputil_gpus := Except.error () }

/-- C8 witness: with no enumeration library and no driver directory
detection yields a count and empty types, and with a raising GPUtil
query a requested count of 2 is returned with empty types. -/
theorem claim_C8_witness :
    (∃ k, _get_cuda_info rayConsts baseEnv none = Except.ok (k, [])) ∧
      _get_cuda_info rayConsts cudaFailEnv (some 2) = Except.ok (2, []) :=
  ⟨((claim_C8_detection_fault_tolerance rayConsts baseEnv).1 rfl rfl
      (fun h => absurd h (by decide))).1,
    (claim_C8_detection_fault_tolerance rayConsts cudaFailEnv).2.1 2 rfl (Or.inl rfl)⟩

/-- baseEnv with an accelerator family that is neither CUDA nor XPU. -/
def noAccEnv : Env := { baseEnv with accelerator := "NONE" }

/-- C9 counterexample: with accelerator NONE, a declaration whose
accelerator count is set but whose redis cap is 100 bytes makes resolve
raise the redis-below-minimum error, not a NameError — so resolve does
not raise NameError for every input declaration. -/
theorem claim_C9_counterexample :
    noAccEnv.accelerator ≠ "CUDA" ∧ noAccEnv.accelerator ≠ "XPU" ∧
      (⟨none, some 1, none, some 49000000, none, some 100⟩ : ResourceSpec).num_gpus =
        some 1 ∧
      resolve rayConsts noAccEnv ⟨none, some 1, none, some 49000000, none, some 100⟩
          false none = Except.error ResolveErr.redisMemoryBelowMinimum ∧
      resolve rayConsts noAccEnv ⟨none, some 1, none, some 49000000, none, some 100⟩
          false none ≠ Except.error ResolveErr.nameErrorNumGpus := by
  have hres : resolve rayConsts noAccEnv
      ⟨none, some 1, none, some 49000000, none, some 100⟩ false none =
      Except.error ResolveErr.redisMemoryBelowMinimum := by
    rw [resolve_eq_afterNaming rayConsts noAccEnv _ false none (by decide) (by decide)
      (by decide) (by decide) (by decide)]
    unfold afterNaming
    dsimp only [Option.getD]
    rw [show acceleratorStep rayConsts noAccEnv (some 1) = Except.ok (none, []) from rfl]
    dsimp only
    rw [if_pos (show (100 : ℚ) < rayConsts.REDIS_MINIMUM_MEMORY_BYTES from
      by norm_num [rayConsts])]
  exact ⟨by decide, by decide, rfl, hres, by rw [hres]; simp⟩

/-- C9 amended: when the accelerator environment is neither CUDA nor
XPU, resolve never returns a resolved declaration — every input either
fails an earlier validation check or reaches assembly and raises the
NameError for the unassigned accelerator-count local; in particular
every declaration passing the reserved-name, redis-minimum and
memory-floor checks raises NameError even when its accelerator-count
field is set. -/
theorem claim_C9_amended (C : Consts) (env : Env) (self : ResourceSpec)
    (is_head : Bool) (nip : Option String)
    (hc : env.accelerator ≠ "CUDA") (hx : env.accelerator ≠ "XPU") :
    (∀ spec, resolve C env self is_head nip ≠ Except.ok spec) ∧
      (dictHas ((self.resources).getD []) "CPU" = false →
        dictHas ((self.resources).getD []) "GPU" = false →
        dictHas ((self.resources).getD []) "memory" = false →
        dictHas ((self.resources).getD []) "object_store_memory" = false →
        dictHas (dictSet ((self.resources).getD [])
          (NODE_ID_PREF ++ nip.getD env.auto_node_ip) 1) HEAD_NODE_RESOURCE_NAME = false →
        ¬ (self.redis_max_memory).getD (redisDefault C env) <
          C.REDIS_MINIMUM_MEMORY_BYTES →
        (∃ m, memoryStep env self.memory
          ((self.object_store_memory).getD (objectStoreDefault C env))
          ((self.redis_max_memory).getD (redisDefault C env)) is_head = Except.ok m) →
        resolve C env self is_head nip = Except.error ResolveErr.nameErrorNumGpus) := by
  have hstep : acceleratorStep C env self.num_gpus = Except.ok (none, []) :=
    acceleratorStep_other self.num_gpus hc hx
  constructor
  · intro spec hok
    rcases resolve_cases C env self is_head nip with ⟨n, hn⟩ | heq
    · rw [hn] at hok
      exact absurd hok (by simp)
    · rw [heq] at hok
      unfold afterNaming at hok
      dsimp only at hok
      rw [hstep] at hok
      dsimp only at hok
      split at hok
      · exact absurd hok (by simp)
      · split at hok
        · exact absurd hok (by simp)
        · exact absurd hok (by simp)
  · intro h1 h2 h3 h4 h5 hredis hmem
    obtain ⟨m, hm⟩ := hmem
    rw [resolve_eq_afterNaming C env self is_head nip h1 h2 h3 h4 h5]
    unfold afterNaming
    dsimp only
    rw [hstep]
    dsimp only
    rw [if_neg hredis, hm]

/-- noAccEnv with so little system memory that the residual task memory
passes the conjunctive floor check. -/
def smallSysEnv : Env := { noAccEnv with system_memory := 10000000 }

/-- C9 witness: a declaration passing every earlier check on a
non-CUDA, non-XPU environment makes resolve raise the NameError, even
though its accelerator-count field is set. -/
theorem claim_C9_witness :
    resolve rayConsts smallSysEnv
        ⟨none, some 1, none, some 49000000, none, some 10000000⟩ false none =
      Except.error ResolveErr.nameErrorNumGpus :=
  (claim_C9_amended rayConsts smallSysEnv
      ⟨none, some 1, none, some 49000000, none, some 10000000⟩ false none
      (by decide) (by decide)).2
    (by decide) (by decide) (by decide) (by decide) (by decide)
    (by norm_num [rayConsts])
    ⟨1000000, by
      unfold memoryStep
      dsimp only
      norm_num [smallSysEnv, noAccEnv, baseEnv]⟩

end RaySpec
